import Mathlib

/-!
Verification of the iz-cpm Z80 emulator core: a shallow embedding of the
opcode builders in `src/opcode.rs`, `src/opcode_arith.rs`, `src/opcode_bits.rs`
and the BDOS write-string harness in `src/zexio.rs`, followed by theorems
settling the specification claims about them.

Rust machine integers are embedded as `Nat` with explicit `% 256` / `% 65536`
at the points where the source wraps.  The register file and execution state
(`registers.rs`, `state.rs`) are not part of the sources under review; those
accessors are modelled from the specification, §3 and §4.1, and each such
definition is marked accordingly.
-/

set_option maxRecDepth 40000
set_option maxHeartbeats 1600000

namespace IzCpm

/-! ## Flags and the register file -/

/-- The named flag bits of the Z80 flag register (spec §3): Sign, Zero,
bit-5 echo, Half-carry, bit-3 echo, Parity/Overflow, add/subtract (N), Carry. -/
inductive Flag where
  | S | Z | F5 | H | F3 | P | N | C
  deriving DecidableEq

/-- The flag register as one boolean per named bit. -/
structure Flags where
  sf : Bool
  zf : Bool
  f5 : Bool
  hf : Bool
  f3 : Bool
  pf : Bool
  nf : Bool
  cf : Bool
  deriving DecidableEq

/-- 8-bit register selectors, `TABLE_R` order (`opcode.rs` lines 184-186):
B, C, D, E, H, L, the (HL) memory-indirect pseudo-register (`_HL_`, rendered
`HLi` here), and A. -/
inductive Reg8 where
  | B | C | D | E | H | L | HLi | A
  deriving DecidableEq

/-- 16-bit register selectors, `TABLE_RP` order (`opcode.rs` lines 180-181). -/
inductive Reg16 where
  | BC | DE | HL | SP
  deriving DecidableEq

/-- The register file: 8-bit registers, 16-bit SP and PC, and the flags.
Field values are byte (resp. word) sized; operations that wrap do so
explicitly, as the source does. -/
structure Registers where
  a : Nat
  b : Nat
  c : Nat
  d : Nat
  e : Nat
  h : Nat
  l : Nat
  sp : Nat
  pc : Nat
  flags : Flags

/-- Modelled from the spec: `get_flag` reads one named flag bit
(`registers.rs` is not under the reviewed sources; spec §4.1). -/
def Registers.get_flag (r : Registers) : Flag → Bool
  | .S => r.flags.sf
  | .Z => r.flags.zf
  | .F5 => r.flags.f5
  | .H => r.flags.hf
  | .F3 => r.flags.f3
  | .P => r.flags.pf
  | .N => r.flags.nf
  | .C => r.flags.cf

/-- Modelled from the spec: `put_flag(flag, bool)` sets or clears one named
flag bit based on the boolean (`registers.rs` is not under the reviewed
sources; spec §4.1). -/
def Registers.put_flag (r : Registers) (f : Flag) (v : Bool) : Registers :=
  match f with
  | .S => { r with flags := { r.flags with sf := v } }
  | .Z => { r with flags := { r.flags with zf := v } }
  | .F5 => { r with flags := { r.flags with f5 := v } }
  | .H => { r with flags := { r.flags with hf := v } }
  | .F3 => { r with flags := { r.flags with f3 := v } }
  | .P => { r with flags := { r.flags with pf := v } }
  | .N => { r with flags := { r.flags with nf := v } }
  | .C => { r with flags := { r.flags with cf := v } }

/-- Modelled from the spec: `set_flag` forces a flag bit on (spec §4.1). -/
def Registers.set_flag (r : Registers) (f : Flag) : Registers :=
  r.put_flag f true

/-- Modelled from the spec: `clear_flag` forces a flag bit off (spec §4.1). -/
def Registers.clear_flag (r : Registers) (f : Flag) : Registers :=
  r.put_flag f false

/-- Modelled from the spec: `update_sz53_flags(value)` sets Sign from bit 7,
Zero from value == 0, and the 5/3 bits mirrored from the value's own bits 5
and 3 (spec §4.1; `registers.rs` is not under the reviewed sources). -/
def Registers.update_sz53_flags (r : Registers) (v : Nat) : Registers :=
  { r with flags :=
    { r.flags with
        sf := v.testBit 7
        zf := v == 0
        f5 := v.testBit 5
        f3 := v.testBit 3 } }

/-- Modelled from the spec: `update_p_flag(value)` sets Parity/Overflow from
the population parity of the byte — an even number of set bits sets the flag
(spec §4.1). -/
def Registers.update_p_flag (r : Registers) (v : Nat) : Registers :=
  { r with flags :=
    { r.flags with pf := ((List.range 8).countP (fun i => v.testBit i)) % 2 == 0 } }

/-- Modelled from the spec: the combined S/Z/5/3-and-parity updater used by
`build_daa` (`registers.rs` is not under the reviewed sources; spec §4.1). -/
def Registers.update_sz53p_flags (r : Registers) (v : Nat) : Registers :=
  (r.update_sz53_flags v).update_p_flag v

/-- Modelled from the spec: plain 8-bit register read (spec §4.1).  The
(HL)-indirect selector "must never be written as a plain register" (spec §3);
as a plain-register slot it reads 0 here.  `State.get_reg` below gives it its
real memory-indirect meaning. -/
def Registers.get8 (r : Registers) : Reg8 → Nat
  | .B => r.b
  | .C => r.c
  | .D => r.d
  | .E => r.e
  | .H => r.h
  | .L => r.l
  | .HLi => 0
  | .A => r.a

/-- Modelled from the spec: plain 8-bit register write (spec §4.1).  Writes
to the (HL)-indirect slot are dropped at this level (spec §3); `State.set_reg`
below gives it its memory-indirect meaning. -/
def Registers.set8 (r : Registers) (sel : Reg8) (v : Nat) : Registers :=
  match sel with
  | .B => { r with b := v }
  | .C => { r with c := v }
  | .D => { r with d := v }
  | .E => { r with e := v }
  | .H => { r with h := v }
  | .L => { r with l := v }
  | .HLi => r
  | .A => { r with a := v }

/-- Modelled from the spec: 16-bit register read; BC/DE/HL are exactly the
concatenation of their 8-bit halves (spec §3 composition invariant). -/
def Registers.get16 (r : Registers) : Reg16 → Nat
  | .BC => r.b * 256 + r.c
  | .DE => r.d * 256 + r.e
  | .HL => r.h * 256 + r.l
  | .SP => r.sp

/-- `get_a`, the accessor `build_daa` reads the accumulator through. -/
def Registers.get_a (r : Registers) : Nat := r.a

/-- `set_a`, the accessor `build_daa` writes the accumulator through. -/
def Registers.set_a (r : Registers) (v : Nat) : Registers := { r with a := v }

/-! ## Execution state -/

/-- Modelled from the spec: the execution state couples the register file
with addressable memory and the running cycle counter (spec §2, §3;
`state.rs` is not under the reviewed sources).  Memory is the `peek` view:
a byte for every 16-bit address. -/
structure State where
  reg : Registers
  mem : Nat → Nat
  cycles : Nat

/-- Modelled from the spec: `get_reg` reads an 8-bit operand, special-casing
the (HL)-indirect pseudo-register as "the memory byte addressed by HL"
(spec §3; `state.rs` is not under the reviewed sources). -/
def State.get_reg (s : State) (r : Reg8) : Nat :=
  match r with
  | .HLi => s.mem (s.reg.get16 .HL)
  | _ => s.reg.get8 r

/-- Modelled from the spec: `set_reg` writes an 8-bit operand, poking the
byte addressed by HL for the (HL)-indirect pseudo-register (spec §3). -/
def State.set_reg (s : State) (r : Reg8) (v : Nat) : State :=
  match r with
  | .HLi => { s with mem := fun addr => if addr = s.reg.get16 .HL then v else s.mem addr }
  | _ => { s with reg := s.reg.set8 r v }

/-! ## Opcode shapes

The sources contain two parallel builder generations (spec §9): `opcode.rs`
keys opcodes to the flat `State` and records a byte length; the later
generation (used by `opcode_arith.rs`) keys them to an `Environment`.
`opcode_bits.rs` builds `State`-keyed opcodes without a byte length. -/

/-- `Opcode` as declared in `opcode.rs` lines 8-13: name, byte length, base
cycle cost, and an action over the execution state. -/
structure Opcode where
  name : String
  bytes : Nat
  cycles : Nat
  action : State → State

/-- `Opcode.execute` (`opcode.rs` lines 20-23): run the action, then add the
base cycle cost to the running counter. -/
def Opcode.execute (op : Opcode) (s : State) : State :=
  let s2 := op.action s
  { s2 with cycles := s2.cycles + op.cycles }

/-- Opcode shape produced by the bit/rotate builders in `opcode_bits.rs`:
name, base cycle cost, and an action over the execution state. -/
structure OpcodeS where
  name : String
  cycles : Nat
  action : State → State

/-- Modelled from the spec: the `Environment` execution context of the later
builder generation (spec §9); for `build_daa` only its register state is
touched (`environment.rs` is not under the reviewed sources). -/
structure Environment where
  state : State

/-- Opcode shape produced by the environment-keyed builders in
`opcode_arith.rs`. -/
structure OpcodeE where
  name : String
  cycles : Nat
  action : Environment → Environment

/-! ## Wrapping byte arithmetic -/

/-- `u8::wrapping_add`. -/
def add8w (a b : Nat) : Nat := (a + b) % 256

/-- `u8::wrapping_sub` (operands are byte-sized; the subtrahend is reduced
mod 256 first, then the difference is taken mod 256 without underflow). -/
def sub8w (a b : Nat) : Nat := (a + 256 - b % 256) % 256

/-- Display names for 8-bit register selectors (diagnostic only). -/
def Reg8.rname : Reg8 → String
  | .B => "B"
  | .C => "C"
  | .D => "D"
  | .E => "E"
  | .H => "H"
  | .L => "L"
  | .HLi => "(HL)"
  | .A => "A"

/-! ## Builders from `opcode.rs` -/

/-- The byte transformation of `INC r` (`opcode.rs` line 124):
`v = if v == 255 {0} else {v+1}`. -/
def inc8 (v : Nat) : Nat := if v == 255 then 0 else v + 1

/-- The byte transformation of `DEC r` (`opcode.rs` line 144):
`v = if v == 0 {255} else {v-1}`. -/
def dec8 (v : Nat) : Nat := if v == 0 then 255 else v - 1

/-- `build_inc_r` (`opcode.rs` lines 116-134): increment an 8-bit register,
update S/Z/5/3 from the result, clear N, set P/V iff the result is 0x80,
set H iff the result's low nibble is 0x0; Carry is not touched. -/
def build_inc_r (r : Reg8) : Opcode :=
  { name := "INC " ++ r.rname
    bytes := 1
    cycles := 4
    action := fun s =>
      let v := inc8 (s.reg.get8 r)
      let reg1 := ((s.reg.set8 r v).update_sz53_flags v).clear_flag .N
      let reg2 := (reg1.put_flag .P (v == 0x80)).put_flag .H ((v &&& 0x0F) == 0x00)
      { s with reg := reg2 } }

/-- `build_dec_r` (`opcode.rs` lines 136-154): decrement an 8-bit register,
update S/Z/5/3 from the result, set N, set P/V iff the result is 0x7F,
set H iff the result's low nibble is 0xF; Carry is not touched. -/
def build_dec_r (r : Reg8) : Opcode :=
  { name := "DEC " ++ r.rname
    bytes := 1
    cycles := 4
    action := fun s =>
      let v := dec8 (s.reg.get8 r)
      let reg1 := ((s.reg.set8 r v).update_sz53_flags v).set_flag .N
      let reg2 := (reg1.put_flag .P (v == 0x7F)).put_flag .H ((v &&& 0x0F) == 0x0F)
      { s with reg := reg2 } }

/-! ## Builders from `opcode_bits.rs` -/

/-- Shift/rotate mode (`opcode_bits.rs` lines 5-11). -/
inductive ShiftMode where
  | Arithmetic | Logical | Rotate | RotateCarry
  deriving DecidableEq

/-- Shift direction (`opcode_bits.rs` lines 13-17). -/
inductive ShiftDir where
  | Left | Right
  deriving DecidableEq

/-- The value-and-carry computation of `build_rot_r`'s action
(`opcode_bits.rs` lines 28-58), as a function of the direction, mode, the
Carry flag coming in, and the operand byte.  A left shift drops bit 7
(`u8` truncation); a right shift drops bit 0; the vacated bit is filled per
the mode and the dropped bit is the carry-out. -/
def rot_result (dir : ShiftDir) (mode : ShiftMode) (carryIn : Bool)
    (v0 : Nat) : Nat × Bool :=
  match dir with
  | .Left =>
    let upper_bit := decide (v0 ≥ 0x80)
    let v1 := (v0 <<< 1) % 256
    let set_lower_bit :=
      match mode with
      | .Arithmetic => false
      | .Logical => true
      | .Rotate => carryIn
      | .RotateCarry => upper_bit
    (if set_lower_bit then v1 ||| 1 else v1, upper_bit)
  | .Right =>
    let upper_bit := decide (v0 ≥ 0x80)
    let lower_bit := (v0 &&& 1) == 1
    let v1 := v0 >>> 1
    let set_upper_bit :=
      match mode with
      | .Arithmetic => upper_bit
      | .Logical => false
      | .Rotate => carryIn
      | .RotateCarry => lower_bit
    (if set_upper_bit then v1 ||| 0x80 else v1, lower_bit)

/-- `build_rot_r` (`opcode_bits.rs` lines 19-69): the 2×4 direction × mode
shift/rotate template.  The shifted value and carry-out are `rot_result`;
the result is written back, Carry takes the bit shifted off, H and N are
cleared, and the slow variant also updates S/Z/5/3 and parity. -/
def build_rot_r (r : Reg8) (dir : ShiftDir) (mode : ShiftMode) (nm : String)
    (fast : Bool) : OpcodeS :=
  { name := nm ++ (if fast then "" else " ") ++ r.rname
    cycles := if fast then 4 else 8
    action := fun s =>
      let vc := rot_result dir mode (s.reg.get_flag .C) (s.get_reg r)
      let s1 := s.set_reg r vc.1
      let reg1 := ((s1.reg.put_flag .C vc.2).clear_flag .H).clear_flag .N
      let reg2 :=
        if fast then reg1 else (reg1.update_sz53_flags vc.1).update_p_flag vc.1
      { s1 with reg := reg2 } }

/-- `build_bit_r` (`opcode_bits.rs` lines 71-81): test one bit of the operand
and put the Zero flag to whether that bit is set. -/
def build_bit_r (bit : Nat) (r : Reg8) : OpcodeS :=
  { name := "BIT " ++ toString bit ++ ", " ++ r.rname
    cycles := 8
    action := fun s =>
      let v8 := s.get_reg r
      let v1 := (v8 &&& (1 <<< bit)) != 0
      { s with reg := s.reg.put_flag .Z v1 } }

/-- `build_set_r` (`opcode_bits.rs` lines 83-93): force one bit of the
operand on and write it back; flags untouched. -/
def build_set_r (bit : Nat) (r : Reg8) : OpcodeS :=
  { name := "SET " ++ toString bit ++ ", " ++ r.rname
    cycles := 8
    action := fun s => s.set_reg r (s.get_reg r ||| (1 <<< bit)) }

/-- `build_res_r` (`opcode_bits.rs` lines 95-105): force one bit of the
operand off (`v & !(1<<bit)`, the `u8` complement of the mask) and write it
back; flags untouched. -/
def build_res_r (bit : Nat) (r : Reg8) : OpcodeS :=
  { name := "RES " ++ toString bit ++ ", " ++ r.rname
    cycles := 8
    action := fun s => s.set_reg r (s.get_reg r &&& ((1 <<< bit) ^^^ 255)) }

/-- `build_ccf` (`opcode_bits.rs` lines 134-144): complement Carry,
complement Half-carry, clear N.  (Its display name is "SCF" in the source —
flagged by the spec, §9, as a copy-paste artifact.) -/
def build_ccf : OpcodeS :=
  { name := "SCF"
    cycles := 4
    action := fun s =>
      let r1 := s.reg.put_flag .C (!(s.reg.get_flag .C))
      let r2 := r1.put_flag .H (!(r1.get_flag .H))
      { s with reg := r2.clear_flag .N } }

/-! ## `build_daa` from `opcode_arith.rs` -/

/-- `build_daa` (`opcode_arith.rs` lines 104-138): the BCD decimal-adjust
instruction.  (Its display name is "NEG" in the source — flagged by the
spec, §9, as a copy-paste artifact.) -/
def build_daa : OpcodeE :=
  { name := "NEG"
    cycles := 4
    action := fun env =>
      let a := env.state.reg.get_a
      let hi := a >>> 4
      let lo := a &&& 0xf
      let nf := env.state.reg.get_flag .N
      let cf := env.state.reg.get_flag .C
      let hf := env.state.reg.get_flag .H
      let lo6 := hf || decide (lo > 9)
      let hi6 := cf || decide (hi > 9) || (decide (hi == 9) && decide (lo > 9))
      let diff := (if lo6 then 6 else 0) + (if hi6 then 6 <<< 4 else 0)
      let new_a := if nf then sub8w a diff else add8w a diff
      let new_hf := (!nf && decide (lo > 9)) || (nf && hf && decide (lo < 6))
      let new_cf := hi6
      let reg1 := ((env.state.reg.set_a new_a).update_sz53p_flags new_a)
      let reg2 := (reg1.put_flag .H new_hf).put_flag .C new_cf
      { state := { env.state with reg := reg2 } } }

/-! ## The BDOS write-string harness from `zexio.rs` -/

/-- Outcome of the write-string scan: the bytes printed before the `$`
terminator, or the bytes printed before the address increment overflowed the
16-bit address, or fuel ran out. -/
inductive WriteOutcome where
  | ok (out : List Nat)
  | addOverflow (out : List Nat)
  | fuelOut
  deriving DecidableEq

/-- The scanning loop of `bdos_c_writestr` (`zexio.rs` lines 34-40), made
fuel-bounded.  At each step the byte at `address` is peeked; a `$` (byte 36)
stops the scan, otherwise the byte is printed and `address += 1` is executed
with Rust checked-addition semantics on `u16`: incrementing past 0xFFFF is
an arithmetic overflow, not a wrap. -/
def writestr_scan (mem : Nat → Nat) (address : Nat) : Nat → WriteOutcome
  | 0 => .fuelOut
  | fuel + 1 =>
    let ch := mem address
    if ch == 36 then .ok []
    else if address == 65535 then .addOverflow [ch]
    else
      match writestr_scan mem (address + 1) fuel with
      | .ok out => .ok (ch :: out)
      | .addOverflow out => .addOverflow (ch :: out)
      | .fuelOut => .fuelOut

/-- `bdos_c_writestr` (`zexio.rs` lines 32-41): scan memory from the address
in DE for the `$` terminator, printing every byte before it. -/
def bdos_c_writestr (s : State) (fuel : Nat) : WriteOutcome :=
  writestr_scan s.mem (s.reg.get16 .DE) fuel

/-! ## Concrete states for witnesses and counterexamples -/

/-- All-clear flag register. -/
def flags0 : Flags := ⟨false, false, false, false, false, false, false, false⟩

/-- All-zero register file. -/
def reg0 : Registers := ⟨0, 0, 0, 0, 0, 0, 0, 0, 0, flags0⟩

/-- All-zero execution state over all-zero memory. -/
def s0 : State := ⟨reg0, fun _ => 0, 0⟩

/-- A state whose B register holds 0xFF. -/
def sB255 : State := ⟨{ reg0 with b := 255 }, fun _ => 0, 0⟩

/-- An all-zero environment for the environment-keyed builders. -/
def env0 : Environment := ⟨s0⟩

/-! ## Claim statements

Each `...At` definition is the conclusion of one specification claim,
phrased in the claim's own terms, at given parameters. -/

/-- Conclusion of claim C1 at an environment: `build_daa` applies a 0x06
low-nibble correction exactly when H is set or the low nibble exceeds 9 and
a 0x60 high-nibble correction exactly when C is set, the high nibble exceeds
9, or the high nibble is 9 with the low nibble above 9; subtracts the
combined correction when N is set and adds it otherwise, wrapping at 8 bits;
and leaves H set exactly when (N clear and low nibble > 9) or (N, H set and
low nibble < 6). -/
def daaClaimAt (env : Environment) : Prop :=
  let a := env.state.reg.a
  let lo := a % 16
  let hi := a / 16
  let nf := env.state.reg.get_flag .N
  let cf := env.state.reg.get_flag .C
  let hf := env.state.reg.get_flag .H
  let lowCorr : Nat := if hf = true ∨ lo > 9 then 0x06 else 0
  let highCorr : Nat := if cf = true ∨ hi > 9 ∨ (hi = 9 ∧ lo > 9) then 0x60 else 0
  let e2 := build_daa.action env
  (e2.state.reg.a =
    if nf = true then sub8w a (lowCorr + highCorr) else add8w a (lowCorr + highCorr)) ∧
  (e2.state.reg.get_flag .H = true ↔
    ((nf = false ∧ lo > 9) ∨ (nf = true ∧ hf = true ∧ lo < 6)))

/-- Conclusion of claim C4 at a register selector and state: INC r and DEC r
leave Carry untouched, set P/V exactly when the pre-operation value was 0x7F
(INC) or 0x80 (DEC), set H exactly on the low-nibble boundary (pre-operation
low nibble 0xF for INC, 0x0 for DEC), clear N for INC and set it for DEC. -/
def incDecFlagsAt (r : Reg8) (s : State) : Prop :=
  let v0 := s.reg.get8 r
  let si := (build_inc_r r).action s
  let sd := (build_dec_r r).action s
  (si.reg.get_flag .C = s.reg.get_flag .C) ∧
  (si.reg.get_flag .P = (v0 == 0x7F)) ∧
  (si.reg.get_flag .H = ((v0 &&& 0x0F) == 0x0F)) ∧
  (si.reg.get_flag .N = false) ∧
  (sd.reg.get_flag .C = s.reg.get_flag .C) ∧
  (sd.reg.get_flag .P = (v0 == 0x80)) ∧
  (sd.reg.get_flag .H = ((v0 &&& 0x0F) == 0x00)) ∧
  (sd.reg.get_flag .N = true)

/-- Conclusion of claim C5 at a register selector and state: DEC then INC
and INC then DEC both restore the register byte, and neither sequence moves
the Carry flag. -/
def incDecRoundtripAt (r : Reg8) (s : State) : Prop :=
  let sdi := (build_inc_r r).action ((build_dec_r r).action s)
  let sid := (build_dec_r r).action ((build_inc_r r).action s)
  sdi.reg.get8 r = s.reg.get8 r ∧
  sid.reg.get8 r = s.reg.get8 r ∧
  sdi.reg.get_flag .C = s.reg.get_flag .C ∧
  sid.reg.get_flag .C = s.reg.get_flag .C

/-- Conclusion of claim C9 at a bit index, register selector and state: the
BIT action puts the Zero flag to whether bit `bit` of the operand is 1, and
changes no register, no memory byte, the cycle count, and no other flag. -/
def bitClaimAt (bit : Nat) (r : Reg8) (s : State) : Prop :=
  let s2 := (build_bit_r bit r).action s
  (s2.reg.get_flag .Z = (s.get_reg r).testBit bit) ∧
  s2.reg.a = s.reg.a ∧ s2.reg.b = s.reg.b ∧ s2.reg.c = s.reg.c ∧
  s2.reg.d = s.reg.d ∧ s2.reg.e = s.reg.e ∧ s2.reg.h = s.reg.h ∧
  s2.reg.l = s.reg.l ∧ s2.reg.sp = s.reg.sp ∧ s2.reg.pc = s.reg.pc ∧
  s2.mem = s.mem ∧ s2.cycles = s.cycles ∧
  s2.reg.flags.sf = s.reg.flags.sf ∧ s2.reg.flags.f5 = s.reg.flags.f5 ∧
  s2.reg.flags.hf = s.reg.flags.hf ∧ s2.reg.flags.f3 = s.reg.flags.f3 ∧
  s2.reg.flags.pf = s.reg.flags.pf ∧ s2.reg.flags.nf = s.reg.flags.nf ∧
  s2.reg.flags.cf = s.reg.flags.cf

/-- Conclusion of claim C10 at a state: `build_ccf` inverts Carry, puts
Half-carry to the complement of its own previous value, clears N, and leaves
every register, memory byte, the cycle count, and every other flag as it
was. -/
def ccfClaimAt (s : State) : Prop :=
  let s2 := build_ccf.action s
  (s2.reg.get_flag .C = !(s.reg.get_flag .C)) ∧
  (s2.reg.get_flag .H = !(s.reg.get_flag .H)) ∧
  (s2.reg.get_flag .N = false) ∧
  s2.reg.a = s.reg.a ∧ s2.reg.b = s.reg.b ∧ s2.reg.c = s.reg.c ∧
  s2.reg.d = s.reg.d ∧ s2.reg.e = s.reg.e ∧ s2.reg.h = s.reg.h ∧
  s2.reg.l = s.reg.l ∧ s2.reg.sp = s.reg.sp ∧ s2.reg.pc = s.reg.pc ∧
  s2.mem = s.mem ∧ s2.cycles = s.cycles ∧
  s2.reg.flags.sf = s.reg.flags.sf ∧ s2.reg.flags.zf = s.reg.flags.zf ∧
  s2.reg.flags.f5 = s.reg.flags.f5 ∧ s2.reg.flags.f3 = s.reg.flags.f3 ∧
  s2.reg.flags.pf = s.reg.flags.pf

/-- Conclusion of the amended claim C2 at a register selector, state, name
and speed: a Logical-mode shift fills the vacated bit 7 with 0 after a right
shift, and fills the vacated bit 0 with 1 after a left shift. -/
def logicalFillAt (r : Reg8) (s : State) (nm : String) (fast : Bool) : Prop :=
  ((((build_rot_r r .Right .Logical nm fast).action s).get_reg r).testBit 7 = false) ∧
  ((((build_rot_r r .Left .Logical nm fast).action s).get_reg r).testBit 0 = true)

/-- Conclusion of the amended claim C3 at a bit index, register selector and
state: SET b,r followed by RES b,r leaves the register holding its original
byte with bit b cleared, which is the original byte exactly when bit b of it
was 0. -/
def setResAt (bit : Nat) (r : Reg8) (s : State) : Prop :=
  let v0 := s.get_reg r
  let s2 := (build_res_r bit r).action ((build_set_r bit r).action s)
  s2.get_reg r = v0 &&& ((1 <<< bit) ^^^ 255) ∧
  (s2.get_reg r = v0 ↔ v0.testBit bit = false)

/-- Conclusion of claim C8 at a register selector and state: a RotateCarry
rotate right followed by a RotateCarry rotate left restores the register
byte. -/
def rotRoundtripAt (r : Reg8) (s : State) : Prop :=
  let s1 := (build_rot_r r .Right .RotateCarry "RRC" false).action s
  let s2 := (build_rot_r r .Left .RotateCarry "RLC" false).action s1
  s2.get_reg r = s.get_reg r

/-- A state whose DE register pair holds 0xFFFF, over all-zero memory (so no
byte is the `$` terminator). -/
def sFFFF : State := ⟨{ reg0 with d := 255, e := 255 }, fun _ => 0, 0⟩

/-! # Theorems -/

/-! ## Helper lemmas -/

/-- The source's bit test `(v & (1 << bit)) != 0` agrees with `Nat.testBit`. -/
theorem and_one_shiftLeft_bne (v bit : Nat) :
    ((v &&& (1 <<< bit)) != 0) = v.testBit bit := by
  rw [Nat.one_shiftLeft, Nat.and_two_pow]
  cases h : v.testBit bit
  · simp
  · simp [Nat.pow_eq_zero]

/-- Flag table for the INC/DEC byte transformations: the source computes
P/V and H from the post-operation value; over every byte these agree with
the claim's pre-operation boundaries. -/
theorem inc8_dec8_flag_table : ∀ v < 256,
    ((inc8 v == 0x80) = (v == 0x7F)) ∧
    (((inc8 v &&& 0x0F) == 0x00) = ((v &&& 0x0F) == 0x0F)) ∧
    ((dec8 v == 0x7F) = (v == 0x80)) ∧
    (((dec8 v &&& 0x0F) == 0x0F) = ((v &&& 0x0F) == 0x00)) := by
  decide

/-- `inc8` and `dec8` are mutually inverse on bytes. -/
theorem inc8_dec8_cancel : ∀ v < 256, inc8 (dec8 v) = v ∧ dec8 (inc8 v) = v := by
  decide

/-! ## Claim C6 -/

/-- C6: for every constructed opcode and state, `Opcode.execute` runs the
action and then adds exactly the opcode's base cycle cost to the running
cycle counter, on top of whatever the action did; registers and memory are
exactly the action's. -/
theorem execute_adds_base_cycles (op : Opcode) (s : State) :
    (op.execute s).cycles = (op.action s).cycles + op.cycles ∧
    (op.execute s).reg = (op.action s).reg ∧
    (op.execute s).mem = (op.action s).mem :=
  ⟨rfl, rfl, rfl⟩

/-! ## Claim C10 -/

/-- C10: `build_ccf` inverts Carry, complements Half-carry, clears N, and
touches nothing else. -/
theorem ccf_claim (s : State) : ccfClaimAt s :=
  ⟨rfl, rfl, rfl, rfl, rfl, rfl, rfl, rfl, rfl, rfl, rfl, rfl, rfl, rfl,
   rfl, rfl, rfl, rfl, rfl⟩

/-! ## Claim C9 -/

/-- C9: for every bit index 0-7, register selector and state, the BIT action
puts the Zero flag to whether the tested bit is 1 and modifies no register
and no other flag. -/
theorem bit_r_claim (bit : Nat) (r : Reg8) (s : State) (_hbit : bit < 8) :
    bitClaimAt bit r s := by
  refine ⟨?_, rfl, rfl, rfl, rfl, rfl, rfl, rfl, rfl, rfl, rfl, rfl, rfl,
    rfl, rfl, rfl, rfl, rfl, rfl⟩
  exact and_one_shiftLeft_bne (s.get_reg r) bit

/-- Witness for C9 at bit 0, register B, the all-zero state. -/
theorem bit_r_claim_witness : (0 : Nat) < 8 ∧ bitClaimAt 0 .B s0 :=
  ⟨by decide, bit_r_claim 0 .B s0 (by decide)⟩

/-! ## Claim C4 -/

/-- C4: INC r and DEC r leave Carry untouched, set P/V exactly at the
pre-operation values 0x7F (INC) / 0x80 (DEC), set H exactly at the
low-nibble boundary, clear N for INC and set it for DEC. -/
theorem inc_dec_flags_claim (r : Reg8) (s : State) (hr : r ≠ .HLi)
    (hv : s.reg.get8 r < 256) : incDecFlagsAt r s := by
  obtain ⟨h1, h2, h3, h4⟩ := inc8_dec8_flag_table (s.reg.get8 r) hv
  cases r
  case HLi => exact absurd rfl hr
  all_goals
    simp only [incDecFlagsAt, build_inc_r, build_dec_r, Registers.get8,
      Registers.set8, Registers.update_sz53_flags, Registers.set_flag,
      Registers.clear_flag, Registers.put_flag, Registers.get_flag,
      and_true, true_and]
    exact ⟨h1, h2, h3, h4⟩

/-- Witness for C4 at register B, the all-zero state. -/
theorem inc_dec_flags_claim_witness :
    (Reg8.B ≠ Reg8.HLi ∧ s0.reg.get8 .B < 256) ∧ incDecFlagsAt .B s0 :=
  ⟨⟨by decide, by decide⟩, inc_dec_flags_claim .B s0 (by decide) (by decide)⟩

/-! ## Claim C5 -/

/-- C5: DEC then INC and INC then DEC both restore the register byte, and
neither sequence moves the Carry flag. -/
theorem inc_dec_roundtrip_claim (r : Reg8) (s : State) (hr : r ≠ .HLi)
    (hv : s.reg.get8 r < 256) : incDecRoundtripAt r s := by
  obtain ⟨h1, h2⟩ := inc8_dec8_cancel (s.reg.get8 r) hv
  cases r
  case HLi => exact absurd rfl hr
  all_goals
    simp only [incDecRoundtripAt, build_inc_r, build_dec_r, State.get_reg,
      Registers.get8, Registers.set8, Registers.update_sz53_flags,
      Registers.set_flag, Registers.clear_flag, Registers.put_flag,
      Registers.get_flag, and_true, true_and]
    exact ⟨h1, h2⟩

/-- Witness for C5 at register B, the all-zero state. -/
theorem inc_dec_roundtrip_claim_witness :
    (Reg8.B ≠ Reg8.HLi ∧ s0.reg.get8 .B < 256) ∧ incDecRoundtripAt .B s0 :=
  ⟨⟨by decide, by decide⟩, inc_dec_roundtrip_claim .B s0 (by decide) (by decide)⟩

/-! ## More helper lemmas -/

/-- Writing an operand and reading the same operand back yields the written
value, for plain registers and for the (HL)-indirect slot alike. -/
theorem get_reg_set_reg (s : State) (r : Reg8) (v : Nat) :
    (s.set_reg r v).get_reg r = v := by
  cases r <;> simp [State.set_reg, State.get_reg, Registers.set8, Registers.get8]

/-- Reading back the operand a `build_rot_r` action wrote: the shifted value
`rot_result` computes from the incoming Carry flag and the operand byte. -/
theorem rot_action_get_reg (r : Reg8) (dir : ShiftDir) (mode : ShiftMode)
    (nm : String) (fast : Bool) (s : State) :
    ((build_rot_r r dir mode nm fast).action s).get_reg r
      = (rot_result dir mode (s.reg.get_flag .C) (s.get_reg r)).1 := by
  cases r <;> cases fast <;>
    simp [build_rot_r, State.set_reg, State.get_reg, Registers.set8,
      Registers.get8, Registers.get16, Registers.put_flag,
      Registers.clear_flag, Registers.update_sz53_flags,
      Registers.update_p_flag]

/-- Bit table for SET-then-RES: over every byte and bit position 0-7,
the composition masks the bit off, and restores the byte exactly when the
bit was clear. -/
theorem set_res_table : ∀ b < 8, ∀ v < 256,
    ((v ||| (1 <<< b)) &&& ((1 <<< b) ^^^ 255) = v &&& ((1 <<< b) ^^^ 255)) ∧
    ((v ||| (1 <<< b)) &&& ((1 <<< b) ^^^ 255) = v ↔ v.testBit b = false) := by
  decide

/-- Byte table for the Logical shift fill bits: right fills bit 7 with 0,
left fills bit 0 with 1, whatever the incoming carry. -/
theorem logical_fill_table : ∀ v < 256, ∀ c : Bool,
    ((rot_result .Right .Logical c v).1.testBit 7 = false) ∧
    ((rot_result .Left .Logical c v).1.testBit 0 = true) := by
  decide

/-- Byte table for the RotateCarry round trip: rotate right then rotate
left restores every byte, whatever the incoming carries. -/
theorem rotate_carry_table : ∀ v < 256, ∀ c c' : Bool,
    (rot_result .Left .RotateCarry c
      (rot_result .Right .RotateCarry c' v).1).1 = v := by
  decide

/-! ## Claim C1 -/

/-- Nibble-correction table for `build_daa`: over every byte and every
combination of the prior N, C, H flags, the value and H-flag formulas the
source computes agree with the claim's trigger conditions stated over the
decimal nibbles. -/
theorem daa_table : ∀ a < 256, ∀ nf cf hf : Bool,
    ((if nf = true then
        sub8w a
          ((if (hf || decide (a &&& 15 > 9)) = true then 6 else 0) +
            if (cf || decide (a >>> 4 > 9) ||
                decide ((a >>> 4 == 9) = true) && decide (a &&& 15 > 9)) = true
            then 6 <<< 4 else 0)
      else
        add8w a
          ((if (hf || decide (a &&& 15 > 9)) = true then 6 else 0) +
            if (cf || decide (a >>> 4 > 9) ||
                decide ((a >>> 4 == 9) = true) && decide (a &&& 15 > 9)) = true
            then 6 <<< 4 else 0)) =
      if nf = true then
        sub8w a
          ((if hf = true ∨ a % 16 > 9 then 6 else 0) +
            if cf = true ∨ a / 16 > 9 ∨ (a / 16 = 9 ∧ a % 16 > 9) then 96 else 0)
      else
        add8w a
          ((if hf = true ∨ a % 16 > 9 then 6 else 0) +
            if cf = true ∨ a / 16 > 9 ∨ (a / 16 = 9 ∧ a % 16 > 9) then 96 else 0)) ∧
    ((!nf && decide (a &&& 15 > 9) || nf && hf && decide (a &&& 15 < 6)) = true ↔
      (nf = false ∧ a % 16 > 9) ∨ (nf = true ∧ hf = true ∧ a % 16 < 6)) := by
  decide

/-- C1: `build_daa` applies the 0x06 / 0x60 nibble corrections exactly under
the claimed trigger conditions, adds or subtracts the combined correction by
the N flag with 8-bit wrap, and recomputes H exactly as claimed. -/
theorem daa_matches_claim (env : Environment) (ha : env.state.reg.a < 256) :
    daaClaimAt env := by
  simp only [daaClaimAt, build_daa, Registers.get_a, Registers.set_a,
    Registers.update_sz53p_flags, Registers.update_sz53_flags,
    Registers.update_p_flag, Registers.put_flag, Registers.get_flag]
  exact daa_table env.state.reg.a ha env.state.reg.flags.nf
    env.state.reg.flags.cf env.state.reg.flags.hf

/-- Witness for C1 at the all-zero environment. -/
theorem daa_matches_claim_witness :
    env0.state.reg.a < 256 ∧ daaClaimAt env0 :=
  ⟨by decide, daa_matches_claim env0 (by decide)⟩

/-! ## Claim C2 -/

/-- C2 counterexample: shifting 0x00 left in Logical mode yields 0x01 —
the vacated bit 0 is filled with 1, not with the 0 the claim states
(`opcode_bits.rs` line 34: "always 1 in bit 0"). -/
theorem logical_fill_cex :
    (((build_rot_r .B .Left .Logical "SLL" false).action s0).get_reg .B)
      = 1 := by
  decide

/-- C2 amended: a Logical-mode right shift fills bit 7 with 0; a
Logical-mode left shift fills bit 0 with 1. -/
theorem logical_fill_amended (r : Reg8) (s : State) (nm : String)
    (fast : Bool) (hv : s.get_reg r < 256) : logicalFillAt r s nm fast := by
  obtain ⟨k1, k2⟩ := logical_fill_table (s.get_reg r) hv (s.reg.get_flag .C)
  unfold logicalFillAt
  rw [rot_action_get_reg, rot_action_get_reg]
  exact ⟨k1, k2⟩

/-- Witness for the amended C2 at register B, the all-zero state. -/
theorem logical_fill_amended_witness :
    s0.get_reg .B < 256 ∧ logicalFillAt .B s0 "SL" false :=
  ⟨by decide, logical_fill_amended .B s0 "SL" false (by decide)⟩

/-! ## Claim C3 -/

/-- C3 counterexample: with B = 0xFF, SET 0,B then RES 0,B leaves B = 0xFE,
not the original 0xFF — the original byte is not restored when the bit was
already set. -/
theorem set_res_cex :
    sB255.reg.get8 .B = 255 ∧
    ((build_res_r 0 .B).action ((build_set_r 0 .B).action sB255)).reg.get8 .B
      = 254 := by
  constructor <;> decide

/-- C3 amended: SET b,r then RES b,r leaves the register holding the
original byte with bit b cleared; that equals the original byte exactly when
bit b of it was 0. -/
theorem set_then_res_amended (bit : Nat) (r : Reg8) (s : State)
    (hbit : bit < 8) (hv : s.get_reg r < 256) : setResAt bit r s := by
  obtain ⟨k1, k2⟩ := set_res_table bit hbit (s.get_reg r) hv
  unfold setResAt
  simp only [build_set_r, build_res_r]
  rw [get_reg_set_reg, get_reg_set_reg]
  exact ⟨k1, k2⟩

/-- Witness for the amended C3 at bit 0, register B, B = 0xFF. -/
theorem set_then_res_amended_witness :
    ((0 : Nat) < 8 ∧ sB255.get_reg .B < 256) ∧ setResAt 0 .B sB255 :=
  ⟨⟨by decide, by decide⟩, set_then_res_amended 0 .B sB255 (by decide) (by decide)⟩

/-! ## Claim C8 -/

/-- C8: a RotateCarry rotate right followed by a RotateCarry rotate left
restores the register byte. -/
theorem rotate_carry_roundtrip_claim (r : Reg8) (s : State)
    (hv : s.get_reg r < 256) : rotRoundtripAt r s := by
  show ((build_rot_r r .Left .RotateCarry "RLC" false).action
      ((build_rot_r r .Right .RotateCarry "RRC" false).action s)).get_reg r
    = s.get_reg r
  rw [rot_action_get_reg, rot_action_get_reg]
  exact rotate_carry_table (s.get_reg r) hv _ _

/-- Witness for C8 at register B, the all-zero state. -/
theorem rotate_carry_roundtrip_claim_witness :
    s0.get_reg .B < 256 ∧ rotRoundtripAt .B s0 :=
  ⟨by decide, rotate_carry_roundtrip_claim .B s0 (by decide)⟩

/-! ## Claim C7 -/

/-- C7: the failing input for the write-string harness.  With DE = 0xFFFF
and no `$` terminator at that address, the scan prints the byte at 0xFFFF
and then hits the `u16` increment overflow — under Rust's checked-addition
semantics `address += 1` faults there instead of wrapping to 0x0000 as the
claim (and spec §7) require. -/
theorem writestr_overflow_at_ffff :
    bdos_c_writestr sFFFF 2 = .addOverflow [0] := by
  decide

end IzCpm
